import Mathlib

/-!
Verification of the multi-identity session manager of
`src/lib/context/auth-context.tsx` (the opencast repository).

The stateful React component is embedded shallowly: the component state
(`user`, `users`, `loading`, `error`) becomes an explicit `SessionState`
record, the external key-pair storage becomes an explicit `KeyPairStore`
record threaded through the operations, and the remote profile resolver
becomes a function `KeyPair → Option UserFull` (a deterministic snapshot of
the resolver's responses; a fetch failure and a null result are both `none`,
which is how the source treats them).  Each operation is modelled as a pure
function from the pre-state to the post-state, run to completion of all of
its asynchronous parts.
-/

/-- A key pair, identified by its `publicKey` (source: `types/keypair`). -/
structure KeyPair where
  publicKey : String
  privateKey : String
deriving DecidableEq

/-- Modelled from the spec: `UserFull` (the remote user profile) lives in
`lib/types/user`, which is not part of the sources; the spec says it is a
record keyed by a user id and carrying profile fields.  Only the id is
relevant to the verified behavior. -/
structure UserFull where
  id : String
deriving DecidableEq

/-- `UserWithKey = UserFull & { keyPair: KeyPair }` (auth-context.tsx line 21). -/
structure UserWithKey where
  user : UserFull
  keyPair : KeyPair
deriving DecidableEq

/-- Modelled from the spec: the persistent key-pair store of `lib/storage`
(not part of the sources).  Per the spec it holds the persisted active key
pair (storage slot `keyPair`) and the stable, meaningfully ordered list of
all key pairs ever used to sign in (storage slot `keyPairs`). -/
structure KeyPairStore where
  active : Option KeyPair
  all : List KeyPair
deriving DecidableEq

/-- Modelled from the spec: `getKeyPair()` returns the persisted active key
pair, or nothing when none is persisted. -/
def getKeyPair (s : KeyPairStore) : Option KeyPair :=
  s.active

/-- Modelled from the spec: `setKeyPair(k)` persists `k` as the active key
pair. -/
def setKeyPair (k : KeyPair) (s : KeyPairStore) : KeyPairStore :=
  { s with active := some k }

/-- Modelled from the spec: `getKeyPairs()` enumerates all stored key pairs
in the store's stable enumeration order. -/
def getKeyPairs (s : KeyPairStore) : List KeyPair :=
  s.all

/-- Modelled from the spec: `addKeyPair(k)` appends `k` to the enumerated
list (insertion order is the enumeration order). -/
def addKeyPair (k : KeyPair) (s : KeyPairStore) : KeyPairStore :=
  { s with all := s.all ++ [k] }

/-- Modelled from the spec: `removeKeyPair(k)` removes `k` from the
enumerated list (key pairs are identified by `publicKey`). -/
def removeKeyPair (k : KeyPair) (s : KeyPairStore) : KeyPairStore :=
  { s with all := s.all.filter (fun k2 => k2.publicKey ≠ k.publicKey) }

/-- A deterministic snapshot of the remote profile resolver: `none` covers
both a null response and a failed fetch, exactly as in
`fetchUserForKey` (auth-context.tsx lines 72-79). -/
def Resolver : Type :=
  KeyPair → Option UserFull

/-- `fetchUserForKey` (auth-context.tsx lines 72-79): resolve a key pair to
its profile; null and failure are identified. -/
def fetchUserForKey (resolve : Resolver) (keyPair : KeyPair) : Option UserFull :=
  resolve keyPair

/-- The component state relevant to the session manager:
`user` (the active session), `users` (the known sessions),
`loading` and `error` (auth-context.tsx lines 53-57). -/
structure SessionState where
  user : Option UserWithKey
  users : List UserWithKey
  loading : Bool
  error : Option String
deriving DecidableEq

/-- `manageUser` (auth-context.tsx lines 81-87): resolve the candidate key
pair; on success set the active session, on null/failure leave it
unchanged; in both cases exit loading. -/
def manageUser (resolve : Resolver) (keyPair : KeyPair)
    (st : SessionState) : SessionState :=
  match fetchUserForKey resolve keyPair with
  | some u => { st with user := some ⟨u, keyPair⟩, loading := false }
  | none => { st with loading := false }

/-- `handleUserAuth` (auth-context.tsx lines 93-132), run to completion of
both the candidate resolution (`manageUser`) and the bulk resolution
(`Promise.all` over the snapshot `keyPairs`).  Mirrors the source's order:
persist a forced key pair, read the candidate and the list snapshot, fall
back to the first enumerated key pair, resolve the candidate, onboard a
candidate missing from the snapshot, and rebuild `users` from the snapshot. -/
def handleUserAuth (resolve : Resolver) (forceKeyPair : Option KeyPair)
    (store : KeyPairStore) (st : SessionState) : KeyPairStore × SessionState :=
  let st1 := { st with loading := true }
  let store1 :=
    match forceKeyPair with
    | some k => setKeyPair k store
    | none => store
  let keyPair0 : Option KeyPair :=
    match forceKeyPair with
    | some k => some k
    | none => getKeyPair store1
  let keyPairs := getKeyPairs store1
  let keyPair : Option KeyPair :=
    match keyPair0 with
    | none => if keyPairs.length > 0 then keyPairs.head? else none
    | some k => some k
  let st2 :=
    match keyPair with
    | some k => manageUser resolve k st1
    | none => { st1 with user := none, loading := false }
  let store2 :=
    match keyPair with
    | some k =>
      if (keyPairs.find? (fun k2 => k2.publicKey = k.publicKey)).isSome
      then store1
      else addKeyPair k store1
    | none => store1
  let usersWithKeys :=
    keyPairs.filterMap (fun k => (resolve k).map (fun u => UserWithKey.mk u k))
  (store2, { st2 with users := usersWithKeys })

/-- The candidate active key pair chosen by `handleUserAuth`:
the forced key pair if given, else the persisted active key pair, else the
first enumerated key pair (auth-context.tsx lines 101-106). -/
def candidateKeyPair (forceKeyPair : Option KeyPair)
    (s : KeyPairStore) : Option KeyPair :=
  match forceKeyPair with
  | some k => some k
  | none =>
    match getKeyPair s with
    | some k => some k
    | none => (getKeyPairs s).head?

/-- The reactive effect on `user` (auth-context.tsx lines 134-143): whenever
the active session changes to a non-null session whose key pair differs by
`publicKey` from the persisted active key pair (or none is persisted),
persist that session's key pair. -/
def reconcileActiveKeyPair (user : Option UserWithKey)
    (s : KeyPairStore) : KeyPairStore :=
  match user with
  | none => s
  | some u =>
    match getKeyPair s with
    | none => setKeyPair u.keyPair s
    | some k =>
      if k.publicKey ≠ u.keyPair.publicKey then setKeyPair u.keyPair s else s

/-- The body of `signOut` (auth-context.tsx lines 153-162) without the
surrounding try/catch: read the active key pair, clear the persisted-active
slot, remove the key pair from the enumerated list, and re-run
`handleUserAuth()` with no forced key pair. -/
def signOutRun (resolve : Resolver) (store : KeyPairStore)
    (st : SessionState) : KeyPairStore × SessionState :=
  let keyPair := getKeyPair store
  let store1 : KeyPairStore := { store with active := none }
  let store2 :=
    match keyPair with
    | some k => removeKeyPair k store1
    | none => store1
  handleUserAuth resolve none store2 st

/-- `signOut` with its try/catch (auth-context.tsx lines 153-162):
`storageAvailable = false` stands for the storage layer throwing, in which
case the failure is captured and the state is left intact apart from
`error`. -/
def signOutAttempt (resolve : Resolver) (storageAvailable : Bool)
    (store : KeyPairStore) (st : SessionState) :
    Except String (KeyPairStore × SessionState) :=
  if storageAvailable then Except.ok (signOutRun resolve store st)
  else Except.error "storage unavailable"

/-- `signOut` as seen by the caller: it always returns normally; a storage
failure is captured into the `error` field of the state rather than
re-thrown. -/
def signOut (resolve : Resolver) (storageAvailable : Bool)
    (store : KeyPairStore) (st : SessionState) : KeyPairStore × SessionState :=
  match signOutAttempt resolve storageAvailable store st with
  | Except.ok r => r
  | Except.error e => (store, { st with error := some e })

/-- `NotificationsResponseSummary` (from `lib/types/notifications`, modelled
from the spec: a summary carrying a badge count). -/
structure NotificationsResponseSummary where
  badgeCount : Nat
deriving DecidableEq

/-- The SWR configuration options the poller passes
(auth-context.tsx lines 178-183). -/
structure SWRConfig where
  revalidateOnFocus : Bool
  revalidateOnReconnect : Bool
  refreshWhenHidden : Bool
  refreshInterval : Nat
deriving DecidableEq

/-- The literal configuration of the notification poller
(auth-context.tsx lines 178-183): no focus/reconnect revalidation, keep
refreshing while hidden, fixed 10000 ms period. -/
def notificationsSWRConfig : SWRConfig :=
  { revalidateOnFocus := false
    revalidateOnReconnect := false
    refreshWhenHidden := true
    refreshInterval := 10000 }

/-- The SWR key of the notification poller (auth-context.tsx lines 169-175):
`null` (no request) unless the current screen is not the notifications
screen, an active session with a truthy id exists, and
`lastCheckedNotifications` is non-null; otherwise the request URL carrying
the last-checked timestamp.  Dates are carried as their ISO-8601 strings. -/
def notificationsSWRKey (pathname : String) (user : Option UserWithKey)
    (lastChecked : Option String) : Option String :=
  if pathname ≠ "/notifications" then
    match user with
    | some u =>
      if u.user.id ≠ "" then
        match lastChecked with
        | some t =>
          some ("/api/user/" ++ u.user.id ++ "/notifications?last_time=" ++ t)
        | none => none
      else none
    | none => none
  else none

/-- `resetNotifications` (auth-context.tsx lines 186-188): set
`lastCheckedNotifications` to the current time (as an ISO string). -/
def resetNotifications (nowISO : String) : Option String :=
  some nowISO

/-- The persistence effect on `lastCheckedNotifications`
(auth-context.tsx lines 190-196): every non-null value is written to the
persistent scalar store (`localStorage`, key `lastChecked`); a null value
writes nothing. -/
def persistLastChecked (lastChecked : Option String)
    (persisted : Option String) : Option String :=
  match lastChecked with
  | some t => some t
  | none => persisted

/-- The startup initialization of `lastCheckedNotifications`
(auth-context.tsx lines 145-151): read the persisted ISO string, defaulting
to the current time when nothing usable (null or the falsy empty string) is
persisted. -/
def initialLastChecked (persisted : Option String) (nowISO : String) : String :=
  match persisted with
  | some s => if s ≠ "" then s else nowISO
  | none => nowISO

/-- The exposed `userNotifications` value (auth-context.tsx line 207):
`userNotifications?.badgeCount || null`, so a summary with badge count `0`
is collapsed to null by JavaScript falsiness. -/
def exposedUserNotifications
    (data : Option NotificationsResponseSummary) : Option Nat :=
  match data with
  | some s => if s.badgeCount ≠ 0 then some s.badgeCount else none
  | none => none

/-! ## Characterization lemmas -/

/-- Full characterization of `handleUserAuth`, run to completion: the
persisted active key pair is overwritten only by a forced key pair; the
enumerated list gains the candidate exactly when it was not yet enumerated;
the active session follows the candidate's resolution (keeping its previous
value on failure, cleared when no candidate exists); `users` is rebuilt from
the enumeration snapshot taken at entry; loading ends false; the error state
is untouched. -/
lemma handleUserAuth_eq (resolve : Resolver) (force : Option KeyPair)
    (store : KeyPairStore) (st : SessionState) :
    handleUserAuth resolve force store st =
      (⟨(match force with
          | some k => some k
          | none => store.active),
        (match candidateKeyPair force store with
          | some k =>
            if (store.all.find? (fun k2 => k2.publicKey = k.publicKey)).isSome
            then store.all
            else store.all ++ [k]
          | none => store.all)⟩,
       ⟨(match candidateKeyPair force store with
          | some k =>
            (match resolve k with
              | some u => some ⟨u, k⟩
              | none => st.user)
          | none => none),
        store.all.filterMap (fun k => (resolve k).map (fun u => UserWithKey.mk u k)),
        false,
        st.error⟩) := by
  obtain ⟨active, all⟩ := store
  cases force <;> cases active <;> cases all <;>
    simp [handleUserAuth, candidateKeyPair, manageUser, fetchUserForKey,
      getKeyPair, getKeyPairs, setKeyPair, addKeyPair] <;>
    (repeat' constructor) <;> split <;> rfl

/-! ## Concrete fixtures -/

/-- A concrete key pair used in witnesses and counterexamples. -/
def kpA : KeyPair := ⟨"pkA", "skA"⟩

/-- A second concrete key pair. -/
def kpB : KeyPair := ⟨"pkB", "skB"⟩

/-- A concrete profile for `kpA`. -/
def uA : UserFull := ⟨"1"⟩

/-- A concrete profile for `kpB`. -/
def uB : UserFull := ⟨"2"⟩

/-- A resolver snapshot resolving both fixture key pairs. -/
def resolveBoth : Resolver := fun k =>
  if k.publicKey = "pkA" then some uA
  else if k.publicKey = "pkB" then some uB
  else none

/-- A resolver snapshot resolving only `kpA`. -/
def resolveOnlyA : Resolver := fun k =>
  if k.publicKey = "pkA" then some uA else none

/-- A resolver snapshot that always fails (or returns null). -/
def resolveNone : Resolver := fun _ => none

/-- The initial component state (auth-context.tsx lines 53-57). -/
def stInit : SessionState := ⟨none, [], true, none⟩

/-- A state in which `kpA`'s session is active. -/
def stA : SessionState := ⟨some ⟨uA, kpA⟩, [⟨uA, kpA⟩, ⟨uB, kpB⟩], false, none⟩

/-! ## Claims -/

/-- Claim C1, counterexample: the claim quantifies over `getAll()` as
observed after the call, but `handleUserAuth` rebuilds `usersWithKeys`
(knownSessions) from the enumeration snapshot taken at entry
(auth-context.tsx line 102 versus line 124).  Forcing a key pair that is not
yet enumerated onboards it into the store, so after the call it is in
`getAll()` and its resolution succeeds, yet `knownSessions` has no entry for
it. -/
theorem handleUserAuth_forced_new_key_missing_from_users :
    kpA ∈ getKeyPairs (handleUserAuth resolveOnlyA (some kpA) ⟨none, []⟩ stInit).1
    ∧ resolveOnlyA kpA ≠ none
    ∧ (handleUserAuth resolveOnlyA (some kpA) ⟨none, []⟩ stInit).2.users = [] := by
  decide

/-- Claim C1, amended: after any `handleUserAuth(forceKeyPair?)` call
completes (including its bulk resolution), `knownSessions` equals — in
enumeration order — the successfully resolved sessions of the key pairs
enumerated by the store at the time of the call: one entry per enumerated
key pair whose resolution succeeded, none for one whose resolution failed or
returned null.  A key pair first added to the store by the call itself
(forced onboarding) is not reflected until a later call. -/
theorem handleUserAuth_users_eq_resolved_snapshot (resolve : Resolver)
    (force : Option KeyPair) (store : KeyPairStore) (st : SessionState) :
    (handleUserAuth resolve force store st).2.users
      = (getKeyPairs store).filterMap
          (fun k => (resolve k).map (fun u => UserWithKey.mk u k)) := by
  rw [handleUserAuth_eq]
  rfl

/-- Claim C2: with no forced key pair and no persisted active key pair, if
the store enumerates a non-empty list whose first element resolves
successfully, the resulting active session is built from that first
enumerated key pair, and `knownSessions` is the order-preserving resolved
list of the enumeration. -/
theorem handleUserAuth_fallback_to_first (resolve : Resolver)
    (store : KeyPairStore) (st : SessionState) (k : KeyPair)
    (ks : List KeyPair) (u : UserFull) (hactive : getKeyPair store = none)
    (hall : getKeyPairs store = k :: ks) (hres : resolve k = some u) :
    (handleUserAuth resolve none store st).2.user = some ⟨u, k⟩
    ∧ (handleUserAuth resolve none store st).2.users
        = (k :: ks).filterMap
            (fun k2 => (resolve k2).map (fun u2 => UserWithKey.mk u2 k2)) := by
  simp only [getKeyPairs] at hall
  rw [handleUserAuth_eq]
  constructor
  · simp [candidateKeyPair, getKeyPairs, hactive, hall, hres]
  · simp [hall]

/-- Claim C2, witness: store `[A, B]`, both resolving, nothing persisted
active: the call yields `activeSession.keyPair = A` and
`knownSessions = [A-session, B-session]`. -/
theorem handleUserAuth_fallback_to_first_witness :
    (handleUserAuth resolveBoth none ⟨none, [kpA, kpB]⟩ stInit).2.user
        = some ⟨uA, kpA⟩
    ∧ (handleUserAuth resolveBoth none ⟨none, [kpA, kpB]⟩ stInit).2.users
        = [⟨uA, kpA⟩, ⟨uB, kpB⟩] :=
  ⟨(handleUserAuth_fallback_to_first resolveBoth ⟨none, [kpA, kpB]⟩ stInit kpA
      [kpB] uA (by decide) (by decide) (by decide)).1,
   by decide⟩

/-- Claim C4: whenever the active session changes to a non-null session
whose key pair's `publicKey` differs from the store's persisted active key
pair (or none is persisted), the reconciliation effect — which reacts to the
state change, not to any particular mutator — updates the persisted active
key pair to that session's key pair. -/
theorem reconcile_updates_persisted_active (sess : UserWithKey)
    (s : KeyPairStore)
    (h : ∀ k, getKeyPair s = some k → k.publicKey ≠ sess.keyPair.publicKey) :
    getKeyPair (reconcileActiveKeyPair (some sess) s) = some sess.keyPair := by
  obtain ⟨active, all⟩ := s
  cases active with
  | none => rfl
  | some k =>
    have hk := h k rfl
    simp [reconcileActiveKeyPair, getKeyPair, setKeyPair, hk]

/-- Claim C4, witness: an active session for `kpB` while `kpA` is persisted
active leads the reconciliation to persist `kpB`. -/
theorem reconcile_updates_persisted_active_witness :
    getKeyPair (reconcileActiveKeyPair (some ⟨uB, kpB⟩)
        ⟨some kpA, [kpA, kpB]⟩) = some kpB :=
  reconcile_updates_persisted_active ⟨uB, kpB⟩ ⟨some kpA, [kpA, kpB]⟩
    (fun k hk => by
      simp only [getKeyPair, Option.some.injEq] at hk
      subst hk
      decide)

/-- Claim C6: when the candidate active key pair's resolution fails or
returns null, `handleUserAuth` leaves the active session at its prior value
(no clear), still ends loading false, and never touches the error state. -/
theorem handleUserAuth_resolution_failure_frame (resolve : Resolver)
    (force : Option KeyPair) (store : KeyPairStore) (st : SessionState)
    (k : KeyPair) (hc : candidateKeyPair force store = some k)
    (hres : resolve k = none) :
    (handleUserAuth resolve force store st).2.user = st.user
    ∧ (handleUserAuth resolve force store st).2.loading = false
    ∧ (handleUserAuth resolve force store st).2.error = st.error := by
  rw [handleUserAuth_eq]
  simp [hc, hres]

/-- Claim C6, witness: with `kpA` persisted active but no longer resolving,
the prior session, loading flag and error state are as claimed. -/
theorem handleUserAuth_resolution_failure_frame_witness :
    (handleUserAuth resolveNone none ⟨some kpA, [kpA]⟩ stA).2.user = stA.user
    ∧ (handleUserAuth resolveNone none ⟨some kpA, [kpA]⟩ stA).2.loading = false
    ∧ (handleUserAuth resolveNone none ⟨some kpA, [kpA]⟩ stA).2.error
        = stA.error :=
  handleUserAuth_resolution_failure_frame resolveNone none ⟨some kpA, [kpA]⟩
    stA kpA (by decide) (by decide)

/-- Claim C7: with no forced key pair, no persisted active key pair and an
empty enumeration, `handleUserAuth` ends with a null active session, an
empty known-sessions list, and loading false. -/
theorem handleUserAuth_empty_store (resolve : Resolver) (store : KeyPairStore)
    (st : SessionState) (hactive : getKeyPair store = none)
    (hall : getKeyPairs store = []) :
    (handleUserAuth resolve none store st).2.user = none
    ∧ (handleUserAuth resolve none store st).2.users = []
    ∧ (handleUserAuth resolve none store st).2.loading = false := by
  simp only [getKeyPairs] at hall
  rw [handleUserAuth_eq]
  simp [candidateKeyPair, getKeyPairs, hactive, hall]

/-- Claim C7, witness: the empty store at the initial state. -/
theorem handleUserAuth_empty_store_witness :
    (handleUserAuth resolveBoth none ⟨none, []⟩ stInit).2.user = none
    ∧ (handleUserAuth resolveBoth none ⟨none, []⟩ stInit).2.users = []
    ∧ (handleUserAuth resolveBoth none ⟨none, []⟩ stInit).2.loading = false :=
  handleUserAuth_empty_store resolveBoth ⟨none, []⟩ stInit rfl rfl

/-- When the persisted active key pair (if any) is already enumerated in the
store (by `publicKey`), an unforced `handleUserAuth` leaves the store
untouched: the fallback candidate is the enumeration head, which the
membership check always finds. -/
lemma handleUserAuth_fst_of_wf (resolve : Resolver) (s : KeyPairStore)
    (st : SessionState)
    (hwf : ∀ k, getKeyPair s = some k →
      ∃ k2 ∈ getKeyPairs s, k2.publicKey = k.publicKey) :
    (handleUserAuth resolve none s st).1 = s := by
  rw [handleUserAuth_eq]
  obtain ⟨active, all⟩ := s
  cases active with
  | some k =>
    obtain ⟨k2, hmem, heq⟩ := hwf k rfl
    have hfind : (all.find? (fun k3 => k3.publicKey = k.publicKey)).isSome := by
      rw [List.find?_isSome]
      exact ⟨k2, hmem, by simp [heq]⟩
    simp [candidateKeyPair, getKeyPair, getKeyPairs, hfind]
  | none =>
    cases all with
    | nil => rfl
    | cons k ks =>
      have hfind : ((k :: ks).find?
          (fun k3 => k3.publicKey = k.publicKey)).isSome := by
        rw [List.find?_isSome]
        exact ⟨k, List.mem_cons_self k ks, by simp⟩
      simp [candidateKeyPair, getKeyPair, getKeyPairs, hfind]

/-- Claim C3, counterexample: the claim fails when the persisted active key
pair is not yet enumerated: the first call then onboards it into the store
(a mutation performed by the call itself, not between the calls), so the
second call's bulk resolution sees one more key pair and `knownSessions`
differ even by `publicKey`. -/
theorem handleUserAuth_twice_not_idempotent :
    ((handleUserAuth resolveOnlyA none
        (handleUserAuth resolveOnlyA none ⟨some kpA, []⟩ stInit).1
        (handleUserAuth resolveOnlyA none ⟨some kpA, []⟩ stInit).2).2.users.map
          (fun w => w.keyPair.publicKey))
      ≠ ((handleUserAuth resolveOnlyA none ⟨some kpA, []⟩ stInit).2.users.map
          (fun w => w.keyPair.publicKey)) := by
  decide

/-- Claim C3, amended: calling `handleUserAuth()` twice in succession with
no store mutation and unchanged resolver responses between the calls yields
the same `activeSession` and the same `knownSessions` as the single call —
provided the store is well-formed at the first call, i.e. its persisted
active key pair (if any) is already enumerated in `getAll()` (by
`publicKey`), so that the first call does not itself onboard a new key pair
into the store. -/
theorem handleUserAuth_idempotent (resolve : Resolver) (s : KeyPairStore)
    (st : SessionState)
    (hwf : ∀ k, getKeyPair s = some k →
      ∃ k2 ∈ getKeyPairs s, k2.publicKey = k.publicKey) :
    (handleUserAuth resolve none (handleUserAuth resolve none s st).1
        (handleUserAuth resolve none s st).2).2.user
      = (handleUserAuth resolve none s st).2.user
    ∧ (handleUserAuth resolve none (handleUserAuth resolve none s st).1
        (handleUserAuth resolve none s st).2).2.users
      = (handleUserAuth resolve none s st).2.users
    ∧ (handleUserAuth resolve none (handleUserAuth resolve none s st).1
        (handleUserAuth resolve none s st).2).1
      = (handleUserAuth resolve none s st).1 := by
  have h1 : (handleUserAuth resolve none s st).1 = s :=
    handleUserAuth_fst_of_wf resolve s st hwf
  refine ⟨?_, ?_, ?_⟩
  · rw [h1]
    simp only [handleUserAuth_eq]
    cases hc : candidateKeyPair none s with
    | none => simp [hc]
    | some k =>
      cases hr : resolve k with
      | none => simp [hc, hr]
      | some u => simp [hc, hr]
  · rw [h1]
    simp only [handleUserAuth_eq]
  · rw [h1]
    exact handleUserAuth_fst_of_wf resolve s _ hwf

/-- Claim C3, witness: a well-formed store `[A, B]` with `A` persisted
active; the second call's active session equals the first call's. -/
theorem handleUserAuth_idempotent_witness :
    (handleUserAuth resolveBoth none
        (handleUserAuth resolveBoth none ⟨some kpA, [kpA, kpB]⟩ stInit).1
        (handleUserAuth resolveBoth none ⟨some kpA, [kpA, kpB]⟩ stInit).2).2.user
      = (handleUserAuth resolveBoth none ⟨some kpA, [kpA, kpB]⟩ stInit).2.user :=
  (handleUserAuth_idempotent resolveBoth ⟨some kpA, [kpA, kpB]⟩ stInit
    (fun k hk => by
      simp only [getKeyPair, Option.some.injEq] at hk
      subst hk
      exact ⟨kpA, by decide, rfl⟩)).1

/-- Claim C5, counterexample: sign out of `A` with `B` remaining while `B`'s
profile resolution fails.  Other key pairs remain (`getAll() = [B]`), yet the
resulting active session is neither null nor a different session: it is
still the signed-out `A` session, because the fallback's resolution failure
leaves the previous active session in place. -/
theorem signOut_keeps_stale_active_session :
    getKeyPairs (signOut resolveOnlyA true ⟨some kpA, [kpA, kpB]⟩ stA).1 = [kpB]
    ∧ (signOut resolveOnlyA true ⟨some kpA, [kpA, kpB]⟩ stA).2.user
        = some ⟨uA, kpA⟩
    ∧ stA.user = some ⟨uA, kpA⟩ := by
  decide

/-- Claim C5, amended: after `signOut()` with storage available, the key
pair that was active at the call is absent from `getAll()` and is no longer
persisted as active; if no key pairs remain the active session is null; if
key pairs remain and the first remaining one resolves successfully, the
active session is that session, whose key pair differs from the signed-out
one; if that resolution fails or returns null, the active session keeps its
prior value (possibly still the signed-out session).  Any storage failure is
captured into the error state and not thrown to the caller. -/
theorem signOut_removes_active (resolve : Resolver) (A : KeyPair)
    (store : KeyPairStore) (st : SessionState)
    (hactive : getKeyPair store = some A) :
    (∀ k ∈ getKeyPairs (signOut resolve true store st).1,
        k.publicKey ≠ A.publicKey)
    ∧ getKeyPair (signOut resolve true store st).1 = none
    ∧ (getKeyPairs (signOut resolve true store st).1 = [] →
        (signOut resolve true store st).2.user = none)
    ∧ (∀ k ks u, getKeyPairs (signOut resolve true store st).1 = k :: ks →
        resolve k = some u →
          (signOut resolve true store st).2.user = some ⟨u, k⟩
          ∧ k.publicKey ≠ A.publicKey)
    ∧ signOut resolve false store st
        = (store, { st with error := some "storage unavailable" }) := by
  have hrun : signOut resolve true store st
      = handleUserAuth resolve none
          ⟨none, store.all.filter (fun k2 => k2.publicKey ≠ A.publicKey)⟩ st := by
    simp only [signOut, signOutAttempt, if_pos, signOutRun, hactive,
      removeKeyPair]
  rw [hrun, handleUserAuth_eq]
  have hmem : ∀ k, k ∈ store.all.filter
      (fun k2 => k2.publicKey ≠ A.publicKey) → k.publicKey ≠ A.publicKey := by
    intro k hk
    simpa using (List.mem_filter.mp hk).2
  have hfalse : signOut resolve false store st
      = (store, { st with error := some "storage unavailable" }) := rfl
  cases hF : store.all.filter (fun k2 => k2.publicKey ≠ A.publicKey) with
  | nil =>
    refine ⟨?_, rfl, fun _ => ?_, ?_, hfalse⟩
    · intro k hk
      exact hmem k (hF ▸ hk)
    · simp [candidateKeyPair, getKeyPair, getKeyPairs, hF]
    · intro k ks u hcons
      rw [getKeyPairs] at hcons
      simp only [candidateKeyPair, getKeyPair, getKeyPairs, hF] at hcons
      simp at hcons
  | cons k ks =>
    have hk : k ∈ store.all.filter (fun k2 => k2.publicKey ≠ A.publicKey) := by
      rw [hF]; exact List.mem_cons_self k ks
    have hfind : ((k :: ks).find?
        (fun k3 => k3.publicKey = k.publicKey)).isSome := by
      rw [List.find?_isSome]
      exact ⟨k, List.mem_cons_self k ks, by simp⟩
    refine ⟨?_, rfl, ?_, ?_, hfalse⟩
    · intro k2 hk2
      refine hmem k2 ?_
      rw [hF]
      simpa [getKeyPairs, candidateKeyPair, getKeyPair, hF, hfind] using hk2
    · intro hnil
      simp only [getKeyPairs, candidateKeyPair, getKeyPair, hF, hfind] at hnil
      simp at hnil
    · intro k2 ks2 u hcons hres
      simp only [getKeyPairs, candidateKeyPair, getKeyPair, hF, hfind] at hcons
      simp at hcons
      obtain ⟨hk2, hks2⟩ := hcons
      subst hk2
      constructor
      · simp [candidateKeyPair, getKeyPair, getKeyPairs, hF, hres]
      · exact hmem k (hF ▸ List.mem_cons_self k ks)

/-- Claim C5, witness: signing out of `A` with `B` remaining and resolving;
the resulting active session is `B`'s, a different key pair. -/
theorem signOut_removes_active_witness :
    (signOut resolveBoth true ⟨some kpA, [kpA, kpB]⟩ stInit).2.user
        = some ⟨uB, kpB⟩
    ∧ kpB.publicKey ≠ kpA.publicKey :=
  (signOut_removes_active resolveBoth kpA ⟨some kpA, [kpA, kpB]⟩ stInit
    rfl).2.2.2.1 kpB [] uB (by decide) (by decide)

/-- Claim C8: the poller's SWR key is null (no network request) exactly when
the notifications screen is active, or there is no active session, or
`lastCheckedNotifications` is null; when enabled the key is the summary URL
carrying the last-checked timestamp; and the literal configuration polls on
a fixed 10-second period, keeps refreshing while hidden, and never
revalidates on focus or reconnect.  (The timer semantics live in the
external SWR library; the configuration contract is what the source
states.)  The hypothesis reflects that real sessions carry a non-empty user
id, as JavaScript truthiness of `user?.id` is what the source tests. -/
theorem notificationsPoller_gating (pathname : String)
    (user : Option UserWithKey) (lastChecked : Option String)
    (hid : ∀ w, user = some w → w.user.id ≠ "") :
    (notificationsSWRKey pathname user lastChecked = none ↔
      pathname = "/notifications" ∨ user = none ∨ lastChecked = none)
    ∧ (∀ w t, user = some w → lastChecked = some t →
        pathname ≠ "/notifications" →
          notificationsSWRKey pathname user lastChecked
            = some ("/api/user/" ++ w.user.id
                ++ "/notifications?last_time=" ++ t))
    ∧ notificationsSWRConfig.refreshInterval = 10000
    ∧ notificationsSWRConfig.refreshWhenHidden = true
    ∧ notificationsSWRConfig.revalidateOnFocus = false
    ∧ notificationsSWRConfig.revalidateOnReconnect = false := by
  refine ⟨?_, ?_, rfl, rfl, rfl, rfl⟩
  · by_cases hp : pathname = "/notifications" <;>
      cases user with
      | none => simp [notificationsSWRKey, hp]
      | some w =>
        have hw := hid w rfl
        cases lastChecked <;> simp [notificationsSWRKey, hp, hw]
  · intro w t hw ht hp
    subst hw
    subst ht
    have hw2 := hid w rfl
    simp [notificationsSWRKey, hp, hw2]

/-- Claim C8, witness: away from the notifications screen with an active
session and a non-null timestamp, the key is the summary URL. -/
theorem notificationsPoller_gating_witness :
    notificationsSWRKey "/home" (some ⟨uA, kpA⟩)
        (some "2024-01-01T00:00:00.000Z")
      = some ("/api/user/" ++ (UserWithKey.mk uA kpA).user.id
          ++ "/notifications?last_time=" ++ "2024-01-01T00:00:00.000Z") :=
  (notificationsPoller_gating "/home" (some ⟨uA, kpA⟩)
      (some "2024-01-01T00:00:00.000Z")
      (fun w hw => by
        simp only [Option.some.injEq] at hw
        subst hw
        decide)).2.1
    ⟨uA, kpA⟩ "2024-01-01T00:00:00.000Z" rfl rfl (by decide)

/-- Claim C9: `resetNotifications()` sets `lastCheckedNotifications` to the
current time; every non-null change is written to the persistent scalar
store (and a null value writes nothing); on startup the value is
initialized from the persisted value, defaulting to the current time when
none is persisted. -/
theorem lastChecked_reset_and_persistence (nowISO t : String)
    (persisted : Option String) :
    resetNotifications nowISO = some nowISO
    ∧ persistLastChecked (some t) persisted = some t
    ∧ persistLastChecked none persisted = persisted
    ∧ (persisted = none → initialLastChecked persisted nowISO = nowISO)
    ∧ (∀ s2, persisted = some s2 → s2 ≠ "" →
        initialLastChecked persisted nowISO = s2) := by
  refine ⟨rfl, rfl, rfl, ?_, ?_⟩
  · rintro rfl
    rfl
  · rintro s2 rfl h
    simp [initialLastChecked, h]

/-- Claim C9, witness: a persisted ISO timestamp survives the startup read,
and a reset value round-trips through the persistence effect. -/
theorem lastChecked_reset_and_persistence_witness :
    initialLastChecked (some "2024-01-01T00:00:00.000Z") "now" =
      "2024-01-01T00:00:00.000Z" :=
  (lastChecked_reset_and_persistence "now" "t"
      (some "2024-01-01T00:00:00.000Z")).2.2.2.2
    "2024-01-01T00:00:00.000Z" rfl (by decide)

/-- Claim C10: the exposed `userNotifications` is never the number 0; it is
null when no summary has been fetched and also when the fetched summary's
badge count is 0, so a zero unread count is indistinguishable from absent
data; a non-zero badge count is exposed as is. -/
theorem userNotifications_zero_collapsed
    (d : Option NotificationsResponseSummary) :
    exposedUserNotifications d ≠ some 0
    ∧ exposedUserNotifications none = none
    ∧ (∀ s2, d = some s2 → s2.badgeCount = 0 →
        exposedUserNotifications d = none)
    ∧ (∀ s2, d = some s2 → s2.badgeCount ≠ 0 →
        exposedUserNotifications d = some s2.badgeCount) := by
  refine ⟨?_, rfl, ?_, ?_⟩
  · cases d with
    | none => simp [exposedUserNotifications]
    | some s2 =>
      by_cases h : s2.badgeCount = 0 <;> simp [exposedUserNotifications, h]
  · rintro s2 rfl h
    simp [exposedUserNotifications, h]
  · rintro s2 rfl h
    simp [exposedUserNotifications, h]

/-- Claim C10, witness: a summary with badge count 0 is exposed as null. -/
theorem userNotifications_zero_collapsed_witness :
    exposedUserNotifications (some ⟨0⟩) = none :=
  (userNotifications_zero_collapsed (some ⟨0⟩)).2.2.1 ⟨0⟩ rfl rfl
